import Mathlib

/-!
Shallow embedding of `llama_index/readers/wordpress/base.py`
(`WordpressReader`): constructor post-type set computation, `load_data`
normalization of raw WordPress REST items into documents, and the
pagination loop of `get_all_posts` / `get_posts_page`.

Python dictionaries are modelled as association lists over a small value
type `PyVal`; Python exceptions (AttributeError, TypeError, KeyError,
ValueError) are modelled with `Except PyErr`.  The HTTP layer is modelled
by passing fetch results explicitly.
-/

namespace Wordpress

/-- A Python/JSON value as it appears in WordPress REST responses. -/
inductive PyVal where
  | none
  | str (s : String)
  | int (n : Int)
  | dict (fields : List (String × PyVal))

/-- Python `v is None`. -/
def isNone : PyVal → Bool
  | PyVal.none => true
  | _ => false

/-- Python truthiness for the values we model (`None`, `""`, `0` and `{}`
are falsy). -/
def truthy : PyVal → Bool
  | PyVal.none => false
  | PyVal.str s => !(s == "")
  | PyVal.int n => !(n == 0)
  | PyVal.dict f => !f.isEmpty

/-- First-match association-list lookup, the model of Python dict lookup. -/
def lookupField : List (String × PyVal) → String → Option PyVal
  | [], _ => Option.none
  | (k, v) :: rest, key => if k == key then some v else lookupField rest key

/-- The Python exceptions the reader can raise while normalizing items or
parsing the pagination header.  A missing `id`/`link`/`modified` key
(Python `KeyError`) is the spec's `MalformedItemError`. -/
inductive PyErr where
  | attributeError
  | typeError
  | valueError
  | malformedItem (field : String)
deriving DecidableEq

/-- Python `v.get(key, default)`: returns the stored value (even when it is
`None`) if the key is present, the default if absent, and raises
`AttributeError` when `v` is not a dict. -/
def pyGet (v : PyVal) (key : String) (default : PyVal) : Except PyErr PyVal :=
  match v with
  | PyVal.dict fields =>
    match lookupField fields key with
    | some w => Except.ok w
    | Option.none => Except.ok default
  | _ => Except.error PyErr.attributeError

/-- Python `v[key]`: raises on a missing key (`KeyError`, modelled as
`malformedItem`) or on a non-dict receiver. -/
def pyIndex (v : PyVal) (key : String) : Except PyErr PyVal :=
  match v with
  | PyVal.dict fields =>
    match lookupField fields key with
    | some w => Except.ok w
    | Option.none => Except.error (PyErr.malformedItem key)
  | _ => Except.error PyErr.typeError

/-- Text extraction of `BeautifulSoup(...).get_text()` on a string body,
modelled as dropping everything between `<` and `>`. -/
def stripTagsAux : List Char → Bool → List Char
  | [], _ => []
  | c :: cs, inTag =>
    if c == '<' then stripTagsAux cs true
    else if c == '>' then stripTagsAux cs false
    else if inTag then stripTagsAux cs true
    else c :: stripTagsAux cs false

/-- `BeautifulSoup(body)` followed by `.get_text()`: requires a string
markup argument, raising `TypeError` on `None` or a dict. -/
def soupGetText : PyVal → Except PyErr String
  | PyVal.str s => Except.ok (String.mk (stripTagsAux s.data false))
  | _ => Except.error PyErr.typeError

/-- `body = article.get("content", {}).get("rendered", None);
if body is None: body = article.get("content")`. -/
def resolveBody (article : PyVal) : Except PyErr PyVal :=
  match pyGet article "content" (PyVal.dict []) with
  | Except.error e => Except.error e
  | Except.ok c =>
    match pyGet c "rendered" PyVal.none with
    | Except.error e => Except.error e
    | Except.ok r =>
      if isNone r then pyGet article "content" PyVal.none else Except.ok r

/-- `title = article.get("title", {}).get("rendered", None) or
article.get("title")` — note Python `or` tests truthiness, not just
`None`-ness. -/
def resolveTitle (article : PyVal) : Except PyErr PyVal :=
  match pyGet article "title" (PyVal.dict []) with
  | Except.error e => Except.error e
  | Except.ok t =>
    match pyGet t "rendered" PyVal.none with
    | Except.error e => Except.error e
    | Except.ok r =>
      if truthy r then Except.ok r else pyGet article "title" PyVal.none

/-- The document produced for one raw item: body text plus the
`extra_info` metadata fields. -/
structure Document where
  text : String
  id : PyVal
  title : PyVal
  url : PyVal
  updated_at : PyVal

/-- The per-article body of the `load_data` processing loop: body
resolution, HTML text extraction, title resolution, then the unconditional
`article["id"]`, `article["link"]`, `article["modified"]` accesses, in
source order. -/
def normalizeArticle (article : PyVal) : Except PyErr Document :=
  match resolveBody article with
  | Except.error e => Except.error e
  | Except.ok body =>
    match soupGetText body with
    | Except.error e => Except.error e
    | Except.ok text =>
      match resolveTitle article with
      | Except.error e => Except.error e
      | Except.ok title =>
        match pyIndex article "id" with
        | Except.error e => Except.error e
        | Except.ok i =>
          match pyIndex article "link" with
          | Except.error e => Except.error e
          | Except.ok link =>
            match pyIndex article "modified" with
            | Except.error e => Except.error e
            | Except.ok modified =>
              Except.ok { text := text, id := i, title := title,
                          url := link, updated_at := modified }

/-- Python `int(s)` on a string: optional surrounding whitespace, optional
sign, then a nonempty digit run; anything else raises `ValueError`
(digit-grouping underscores are not modelled). -/
def parseDigits : List Char → Option Nat
  | [] => Option.none
  | cs =>
    if cs.all Char.isDigit then
      some (cs.foldl (fun a c => a * 10 + (c.toNat - 48)) 0)
    else Option.none

/-- ASCII whitespace, the model of what Python `str.strip()` removes. -/
def isSpaceChar (c : Char) : Bool :=
  c == ' ' || c == '\t' || c == '\n' || c == '\r'

/-- Python `s.strip()`: drop whitespace from both ends. -/
def pyStrip (s : String) : String :=
  String.mk (((s.data.dropWhile isSpaceChar).reverse.dropWhile isSpaceChar).reverse)

def parsePyInt (s : String) : Option Int :=
  match (pyStrip s).data with
  | [] => Option.none
  | '+' :: cs => (parseDigits cs).map Int.ofNat
  | '-' :: cs => (parseDigits cs).map (fun n => -(n : Int))
  | cs => (parseDigits cs).map Int.ofNat

/-- Case-sensitive first-match lookup in the response headers. -/
def lookupHeader : List (String × String) → String → Option String
  | [], _ => Option.none
  | (k, v) :: rest, key => if k == key then some v else lookupHeader rest key

/-- `num_pages = int(response_headers.get("X-WP-TotalPages", 1))`: the
default `1` applies only when the header is absent; a present value goes
through `int(...)`, which raises `ValueError` when unparseable. -/
def parseTotalPages (headers : List (String × String)) : Except PyErr Int :=
  match lookupHeader headers "X-WP-TotalPages" with
  | Option.none => Except.ok 1
  | some s =>
    match parsePyInt s with
    | some n => Except.ok n
    | Option.none => Except.error PyErr.valueError

/-- Result of one `get_posts_page` call. -/
structure PageResponse where
  articles : List PyVal
  next_page : Option Int

/-- The post-HTTP logic of `get_posts_page` on a successful response with
the given headers and JSON article list:
`next_page = current_page + 1 if num_pages > current_page else None`. -/
def get_posts_page (headers : List (String × String)) (articles : List PyVal)
    (current_page : Int) : Except PyErr PageResponse :=
  match parseTotalPages headers with
  | Except.error e => Except.error e
  | Except.ok num_pages =>
    Except.ok { articles := articles,
                next_page := if num_pages > current_page
                             then some (current_page + 1) else Option.none }

/-- The request URL built by `get_posts_page`:
`f"{self.url}/wp-json/wp/v2/{post_type}?per_page=100&page={current_page}"`. -/
def buildUrl (base : String) (post_type : String) (current_page : Nat) : String :=
  base ++ "/wp-json/wp/v2/" ++ post_type ++ "?per_page=100&page=" ++ toString current_page

/-- One page of results as seen by the pagination loop. -/
structure PageResult where
  articles : List PyVal
  next_page : Option Nat

/-- The `while True` loop of `get_all_posts`, with `fetch` standing for
`get_posts_page` on the given post type.  State: current page, accumulated
posts, `pages_fetched`.  The loop first accumulates the page's items and
increments `pages_fetched`, breaks when `next_page is None`, and only then
checks `pages_fetched >= page_limit`.  `fuel` bounds the iterations (every
theorem supplies enough fuel for the server it models). -/
def get_all_posts_aux (fetch : Nat → PageResult) (page_limit : Option Nat) :
    Nat → Nat → List PyVal → Nat → List PyVal × Nat
  | 0, _, posts, fetched => (posts, fetched)
  | fuel + 1, page, posts, fetched =>
    let r := fetch page
    let posts := posts ++ r.articles
    let fetched := fetched + 1
    match r.next_page with
    | Option.none => (posts, fetched)
    | some np =>
      match page_limit with
      | Option.none => get_all_posts_aux fetch page_limit fuel np posts fetched
      | some n =>
        if n ≤ fetched then (posts, fetched)
        else get_all_posts_aux fetch page_limit fuel np posts fetched

/-- `get_all_posts`: start at page 1 with no posts accumulated; returns the
accumulated posts and the number of fetch calls made. -/
def get_all_posts (fetch : Nat → PageResult) (page_limit : Option Nat)
    (fuel : Nat) : List PyVal × Nat :=
  get_all_posts_aux fetch page_limit fuel 1 [] 0

/-- A well-behaved server with `total_pages` actual pages: every response
reports that total, so `next_page = page + 1` while `total_pages > page`. -/
def serverFetch (total_pages : Nat) (items : Nat → List PyVal) (page : Nat) :
    PageResult :=
  { articles := items page,
    next_page := if total_pages > page then some (page + 1) else Option.none }

/-- The `results.append` loop of `load_data`: one document per article, in
order, with the first exception aborting the whole call. -/
def mapExcept {α β : Type} (f : α → Except PyErr β) : List α → Except PyErr (List β)
  | [] => Except.ok []
  | a :: as =>
    match f a with
    | Except.error e => Except.error e
    | Except.ok b =>
      match mapExcept f as with
      | Except.error e => Except.error e
      | Except.ok bs => Except.ok (b :: bs)

/-- `for post_type in self.post_types: articles.extend(self.get_all_posts(post_type))`. -/
def gatherArticles (post_types : List String) (fetch : String → Nat → PageResult)
    (page_limit : Option Nat) (fuel : Nat) : List PyVal :=
  post_types.flatMap fun pt => (get_all_posts (fetch pt) page_limit fuel).1

/-- Total number of fetch calls (HTTP requests) issued by `load_data`. -/
def totalFetches (post_types : List String) (fetch : String → Nat → PageResult)
    (page_limit : Option Nat) (fuel : Nat) : Nat :=
  (post_types.map fun pt => (get_all_posts (fetch pt) page_limit fuel).2).sum

/-- `load_data`: gather all articles across the configured post types, then
normalize each into a `Document`. -/
def load_data (post_types : List String) (fetch : String → Nat → PageResult)
    (page_limit : Option Nat) (fuel : Nat) : Except PyErr (List Document) :=
  mapExcept normalizeArticle (gatherArticles post_types fetch page_limit fuel)

/-- Python `s.split(",")`: split on every comma, keeping empty pieces
(so a trailing comma yields a trailing empty string). -/
def splitOnCommaAux : List Char → List Char → List String
  | [], acc => [String.mk acc.reverse]
  | c :: cs, acc =>
    if c == ',' then String.mk acc.reverse :: splitOnCommaAux cs []
    else splitOnCommaAux cs (c :: acc)

def pySplitComma (s : String) : List String :=
  splitOnCommaAux s.data []

/-- Model of Python set insertion (only membership matters; the model keeps
first-insertion order). -/
def addUnique (l : List String) (s : String) : List String :=
  if s ∈ l then l else l ++ [s]

/-- The `__init__` computation of `self.post_types`: add `"pages"` and
`"posts"` per the flags, then, when `additional_post_types` is truthy,
add `post_type.strip() for post_type in additional_post_types.split(",")`. -/
def initPostTypes (get_pages get_posts : Bool)
    (additional_post_types : Option String) : List String :=
  let l : List String := []
  let l := if get_pages then addUnique l "pages" else l
  let l := if get_posts then addUnique l "posts" else l
  match additional_post_types with
  | Option.none => l
  | some s =>
    if s == "" then l
    else ((pySplitComma s).map pyStrip).foldl addUnique l

/-- Both shape-dependent resolution steps and the HTML text extraction
succeed for this article (no claim about `id`/`link`/`modified`). -/
def shapeOk (article : PyVal) : Bool :=
  match resolveBody article with
  | Except.error _ => false
  | Except.ok body =>
    match soupGetText body with
    | Except.error _ => false
    | Except.ok _ =>
      match resolveTitle article with
      | Except.error _ => false
      | Except.ok _ => true

/-- The article lacks one of the unconditionally accessed metadata keys. -/
def missingKeyField (article : PyVal) : Bool :=
  match article with
  | PyVal.dict fields =>
    (lookupField fields "id").isNone || (lookupField fields "link").isNone ||
      (lookupField fields "modified").isNone
  | _ => true

/-- Sample raw item with well-shaped `content`/`title` but no `id`. -/
def sampleMissingId : PyVal :=
  PyVal.dict
    [("content", PyVal.dict [("rendered", PyVal.str "x")]),
     ("title", PyVal.dict [("rendered", PyVal.str "T")]),
     ("link", PyVal.str "L"), ("modified", PyVal.str "M")]

/-- Sample fully well-formed raw item. -/
def sampleGood : PyVal :=
  PyVal.dict
    [("content", PyVal.dict [("rendered", PyVal.str "<p>Hi</p>")]),
     ("title", PyVal.dict [("rendered", PyVal.str "T")]),
     ("id", PyVal.int 1), ("link", PyVal.str "L"),
     ("modified", PyVal.str "M")]

/-- The document `sampleGood` normalizes to. -/
def sampleGoodDoc : Document :=
  { text := "Hi", id := PyVal.int 1, title := PyVal.str "T",
    url := PyVal.str "L", updated_at := PyVal.str "M" }

/-- A one-page server that always returns the given articles. -/
def singlePageFetch (articles : List PyVal) : String → Nat → PageResult :=
  fun _ _ => { articles := articles, next_page := Option.none }

/-! ### Loop invariants for the pagination loop -/

theorem get_all_posts_aux_count_nolimit (t : Nat) (items : Nat → List PyVal) :
    ∀ (fuel p : Nat) (acc : List PyVal) (k : Nat), p ≤ t → t - p < fuel →
      (get_all_posts_aux (serverFetch t items) Option.none fuel p acc k).2 =
        k + (t + 1 - p) := by
  intro fuel
  induction fuel with
  | zero => intro p acc k hp hf; omega
  | succ fuel ih =>
    intro p acc k hp hf
    by_cases hlt : p < t
    · have hnext : (if t > p then some (p + 1) else Option.none) = some (p + 1) :=
        if_pos hlt
      simp only [get_all_posts_aux, serverFetch, hnext]
      rw [ih (p + 1) (acc ++ items p) (k + 1) (by omega) (by omega)]
      omega
    · have hnext : (if t > p then some (p + 1) else Option.none) = Option.none :=
        if_neg (by omega)
      simp only [get_all_posts_aux, serverFetch, hnext]
      omega

theorem get_all_posts_aux_count_limit (t N : Nat) (items : Nat → List PyVal) :
    ∀ (fuel p : Nat) (acc : List PyVal) (k : Nat), p ≤ t → t - p < fuel → k < N →
      (get_all_posts_aux (serverFetch t items) (some N) fuel p acc k).2 =
        k + min (t + 1 - p) (N - k) := by
  intro fuel
  induction fuel with
  | zero => intro p acc k hp hf hk; omega
  | succ fuel ih =>
    intro p acc k hp hf hk
    by_cases hlt : p < t
    · have hnext : (if t > p then some (p + 1) else Option.none) = some (p + 1) :=
        if_pos hlt
      by_cases hN : N ≤ k + 1
      · simp only [get_all_posts_aux, serverFetch, hnext, if_pos hN]
        omega
      · simp only [get_all_posts_aux, serverFetch, hnext, if_neg hN]
        rw [ih (p + 1) (acc ++ items p) (k + 1) (by omega) (by omega) (by omega)]
        omega
    · have hnext : (if t > p then some (p + 1) else Option.none) = Option.none :=
        if_neg (by omega)
      simp only [get_all_posts_aux, serverFetch, hnext]
      omega

theorem get_all_posts_aux_posts_nolimit (t : Nat) (items : Nat → List PyVal) :
    ∀ (fuel p : Nat) (acc : List PyVal) (k : Nat), p ≤ t → t - p < fuel →
      (get_all_posts_aux (serverFetch t items) Option.none fuel p acc k).1 =
        acc ++ (List.range' p (t + 1 - p)).flatMap items := by
  intro fuel
  induction fuel with
  | zero => intro p acc k hp hf; omega
  | succ fuel ih =>
    intro p acc k hp hf
    have hr : t + 1 - p = (t - p) + 1 := by omega
    by_cases hlt : p < t
    · have hnext : (if t > p then some (p + 1) else Option.none) = some (p + 1) :=
        if_pos hlt
      simp only [get_all_posts_aux, serverFetch, hnext]
      rw [ih (p + 1) (acc ++ items p) (k + 1) (by omega) (by omega)]
      have hr2 : t + 1 - (p + 1) = t - p := by omega
      rw [hr, hr2, List.range'_succ, List.flatMap_cons, List.append_assoc]
    · have hnext : (if t > p then some (p + 1) else Option.none) = Option.none :=
        if_neg (by omega)
      simp only [get_all_posts_aux, serverFetch, hnext]
      have h1 : t + 1 - p = 1 := by omega
      rw [h1]
      simp [List.range']

/-! ### Per-article normalization lemmas -/

theorem normalize_missing_key (a : PyVal) (hs : shapeOk a = true)
    (hm : missingKeyField a = true) :
    ∃ k, normalizeArticle a = Except.error (PyErr.malformedItem k) := by
  cases a with
  | dict fields =>
    rcases hb : resolveBody (PyVal.dict fields) with e | body
    · simp [shapeOk, hb] at hs
    rcases hsoup : soupGetText body with e | text
    · simp [shapeOk, hb, hsoup] at hs
    rcases htitle : resolveTitle (PyVal.dict fields) with e | ttl
    · simp [shapeOk, hb, hsoup, htitle] at hs
    cases hid : lookupField fields "id" with
    | none => exact ⟨"id", by simp [normalizeArticle, hb, hsoup, htitle, pyIndex, hid]⟩
    | some vid =>
      cases hlink : lookupField fields "link" with
      | none =>
        exact ⟨"link",
          by simp [normalizeArticle, hb, hsoup, htitle, pyIndex, hid, hlink]⟩
      | some vlink =>
        cases hmod : lookupField fields "modified" with
        | none =>
          exact ⟨"modified",
            by simp [normalizeArticle, hb, hsoup, htitle, pyIndex, hid, hlink, hmod]⟩
        | some vmod => simp [missingKeyField, hid, hlink, hmod] at hm
  | none => simp [shapeOk, resolveBody, pyGet] at hs
  | str s => simp [shapeOk, resolveBody, pyGet] at hs
  | int n => simp [shapeOk, resolveBody, pyGet] at hs

theorem normalize_all_keys (a : PyVal) (hs : shapeOk a = true)
    (hm : missingKeyField a = false) :
    ∃ d, normalizeArticle a = Except.ok d := by
  cases a with
  | dict fields =>
    rcases hb : resolveBody (PyVal.dict fields) with e | body
    · simp [shapeOk, hb] at hs
    rcases hsoup : soupGetText body with e | text
    · simp [shapeOk, hb, hsoup] at hs
    rcases htitle : resolveTitle (PyVal.dict fields) with e | ttl
    · simp [shapeOk, hb, hsoup, htitle] at hs
    cases hid : lookupField fields "id" with
    | none => simp [missingKeyField, hid] at hm
    | some vid =>
      cases hlink : lookupField fields "link" with
      | none => simp [missingKeyField, hid, hlink] at hm
      | some vlink =>
        cases hmod : lookupField fields "modified" with
        | none => simp [missingKeyField, hid, hlink, hmod] at hm
        | some vmod =>
          exact ⟨{ text := text, id := vid, title := ttl, url := vlink,
                   updated_at := vmod },
            by simp [normalizeArticle, hb, hsoup, htitle, pyIndex, hid, hlink, hmod]⟩
  | none => simp [shapeOk, resolveBody, pyGet] at hs
  | str s => simp [shapeOk, resolveBody, pyGet] at hs
  | int n => simp [shapeOk, resolveBody, pyGet] at hs

theorem normalize_missing_key_errors (a : PyVal) (hm : missingKeyField a = true) :
    ∃ e, normalizeArticle a = Except.error e := by
  cases a with
  | dict fields =>
    rcases hb : resolveBody (PyVal.dict fields) with e | body
    · exact ⟨e, by simp [normalizeArticle, hb]⟩
    rcases hsoup : soupGetText body with e | text
    · exact ⟨e, by simp [normalizeArticle, hb, hsoup]⟩
    rcases htitle : resolveTitle (PyVal.dict fields) with e | ttl
    · exact ⟨e, by simp [normalizeArticle, hb, hsoup, htitle]⟩
    cases hid : lookupField fields "id" with
    | none =>
      exact ⟨PyErr.malformedItem "id",
        by simp [normalizeArticle, hb, hsoup, htitle, pyIndex, hid]⟩
    | some vid =>
      cases hlink : lookupField fields "link" with
      | none =>
        exact ⟨PyErr.malformedItem "link",
          by simp [normalizeArticle, hb, hsoup, htitle, pyIndex, hid, hlink]⟩
      | some vlink =>
        cases hmod : lookupField fields "modified" with
        | none =>
          exact ⟨PyErr.malformedItem "modified",
            by simp [normalizeArticle, hb, hsoup, htitle, pyIndex, hid, hlink, hmod]⟩
        | some vmod => simp [missingKeyField, hid, hlink, hmod] at hm
  | none => exact ⟨PyErr.attributeError, by simp [normalizeArticle, resolveBody, pyGet]⟩
  | str s => exact ⟨PyErr.attributeError, by simp [normalizeArticle, resolveBody, pyGet]⟩
  | int n => exact ⟨PyErr.attributeError, by simp [normalizeArticle, resolveBody, pyGet]⟩

theorem mapExcept_error_of_mem {α β : Type} (f : α → Except PyErr β) :
    ∀ (l : List α) (a : α), a ∈ l → (∃ e, f a = Except.error e) →
      ∃ e, mapExcept f l = Except.error e := by
  intro l
  induction l with
  | nil => intro a ha _; simp at ha
  | cons b bs ih =>
    intro a ha he
    cases hfb : f b with
    | error e => exact ⟨e, by simp [mapExcept, hfb]⟩
    | ok v =>
      cases ha with
      | head =>
        obtain ⟨e, hea⟩ := he
        rw [hfb] at hea
        exact Except.noConfusion hea
      | tail _ h =>
        obtain ⟨e, hm⟩ := ih a h he
        exact ⟨e, by simp [mapExcept, hfb, hm]⟩

theorem mapExcept_error_of_missing :
    ∀ (l : List PyVal), (∀ a ∈ l, shapeOk a = true) →
      (∃ a ∈ l, missingKeyField a = true) →
      ∃ k, mapExcept normalizeArticle l = Except.error (PyErr.malformedItem k) := by
  intro l
  induction l with
  | nil => intro _ h; simp at h
  | cons a as ih =>
    intro hs hex
    by_cases hm : missingKeyField a = true
    · obtain ⟨k, hk⟩ := normalize_missing_key a (hs a (by simp)) hm
      exact ⟨k, by simp [mapExcept, hk]⟩
    · have hmf : missingKeyField a = false := by
        revert hm; cases missingKeyField a <;> simp
      obtain ⟨d, hd⟩ := normalize_all_keys a (hs a (by simp)) hmf
      have hex' : ∃ b ∈ as, missingKeyField b = true := by
        obtain ⟨b, hb, hbm⟩ := hex
        cases hb with
        | head => exact absurd hbm hm
        | tail _ h => exact ⟨b, h, hbm⟩
      obtain ⟨k, hk⟩ := ih (fun x hx => hs x (by simp [hx])) hex'
      refine ⟨k, ?_⟩
      simp only [mapExcept, hd, hk]

theorem mapExcept_ok_of_all_ok {α β : Type} (f : α → Except PyErr β) (g : α → β) :
    ∀ (l : List α), (∀ a ∈ l, f a = Except.ok (g a)) →
      mapExcept f l = Except.ok (l.map g) := by
  intro l
  induction l with
  | nil => intro _; rfl
  | cons a as ih =>
    intro h
    simp only [mapExcept, h a (by simp), ih (fun x hx => h x (by simp [hx])),
      List.map_cons]

/-! ### Claim theorems -/

/-- C1 (counterexample): a present but unparseable `X-WP-TotalPages` header
does not fall back to a page count of `1`; `int(...)` raises `ValueError`
and the fetch fails. -/
theorem total_pages_unparseable_counterexample :
    get_posts_page [("X-WP-TotalPages", "not-a-number")] [] 1 =
      Except.error PyErr.valueError ∧
    parseTotalPages [("X-WP-TotalPages", "not-a-number")] ≠ Except.ok 1 := by
  refine ⟨rfl, ?_⟩
  intro h
  have hv : parseTotalPages [("X-WP-TotalPages", "not-a-number")] =
      Except.error PyErr.valueError := rfl
  rw [hv] at h
  exact Except.noConfusion h

/-- C1 (amended): when the `X-WP-TotalPages` header is absent, the page
count defaults to `1` and the fetch succeeds; when the header is present
but unparseable as an integer, the fetch raises `ValueError`. -/
theorem total_pages_header_handling (headers : List (String × String))
    (articles : List PyVal) (p : Int) :
    (lookupHeader headers "X-WP-TotalPages" = Option.none →
       parseTotalPages headers = Except.ok 1 ∧
       get_posts_page headers articles p =
         Except.ok { articles := articles,
                     next_page := if (1 : Int) > p then some (p + 1)
                                  else Option.none }) ∧
    (∀ s, lookupHeader headers "X-WP-TotalPages" = some s →
       parsePyInt s = Option.none →
       get_posts_page headers articles p = Except.error PyErr.valueError) := by
  constructor
  · intro h
    refine ⟨?_, ?_⟩ <;> simp [parseTotalPages, h, get_posts_page]
  · intro s hs hp
    simp [get_posts_page, parseTotalPages, hs, hp]

theorem total_pages_header_handling_witness :
    parseTotalPages [("X-Other", "7")] = Except.ok 1 ∧
    get_posts_page [("X-WP-TotalPages", "abc")] [] 1 =
      Except.error PyErr.valueError :=
  ⟨((total_pages_header_handling [("X-Other", "7")] [] 1).1 rfl).1,
   (total_pages_header_handling [("X-WP-TotalPages", "abc")] [] 1).2 "abc" rfl rfl⟩

/-- C2 (counterexample): a flat scalar `title` does not normalize to the
same resolved title as the nested shape — `.get("rendered", …)` on a
string raises `AttributeError`, failing normalization outright. -/
theorem title_flat_scalar_counterexample :
    resolveTitle (PyVal.dict [("title", PyVal.str "Hello")]) =
      Except.error PyErr.attributeError ∧
    normalizeArticle (PyVal.dict
        [("content", PyVal.dict [("rendered", PyVal.str "B")]),
         ("title", PyVal.str "Hello"),
         ("id", PyVal.int 1), ("link", PyVal.str "L"),
         ("modified", PyVal.str "M")]) =
      Except.error PyErr.attributeError :=
  ⟨rfl, rfl⟩

/-- C2 (amended): for a nonempty string `s` the nested shape
`title = {rendered: s}` resolves to `s`, while the flat scalar shape
`title = s` raises `AttributeError` instead of resolving. -/
theorem title_roundtrip_asymmetry (s : String) (h : s ≠ "") :
    resolveTitle (PyVal.dict [("title", PyVal.dict [("rendered", PyVal.str s)])]) =
      Except.ok (PyVal.str s) ∧
    resolveTitle (PyVal.dict [("title", PyVal.str s)]) =
      Except.error PyErr.attributeError := by
  constructor
  · simp [resolveTitle, pyGet, lookupField, truthy, h]
  · simp [resolveTitle, pyGet, lookupField]

theorem title_roundtrip_asymmetry_witness :
    resolveTitle (PyVal.dict [("title", PyVal.dict [("rendered", PyVal.str "Hello")])]) =
      Except.ok (PyVal.str "Hello") ∧
    resolveTitle (PyVal.dict [("title", PyVal.str "Hello")]) =
      Except.error PyErr.attributeError :=
  title_roundtrip_asymmetry "Hello" (by decide)

/-- C3 (counterexample): a flat scalar `content` is not used directly as
the body string — `.get("rendered", …)` on a string raises
`AttributeError` and normalization fails even when every other field is
well-formed. -/
theorem body_flat_scalar_counterexample :
    resolveBody (PyVal.dict [("content", PyVal.str "Hello")]) =
      Except.error PyErr.attributeError ∧
    normalizeArticle (PyVal.dict
        [("content", PyVal.str "Hello"),
         ("title", PyVal.dict [("rendered", PyVal.str "T")]),
         ("id", PyVal.int 1), ("link", PyVal.str "L"),
         ("modified", PyVal.str "M")]) =
      Except.error PyErr.attributeError :=
  ⟨rfl, rfl⟩

/-- C3 (amended): body resolution prefers `content.rendered` when `content`
is an object with a present non-null `rendered`; when `rendered` is absent
or null the `content` object itself becomes the body (and the subsequent
HTML parsing step then raises `TypeError` on it); a flat scalar `content`
raises `AttributeError` during resolution. -/
theorem body_resolution (fields cf : List (String × PyVal)) (r : PyVal)
    (s : String) :
    (lookupField fields "content" = some (PyVal.dict cf) →
       lookupField cf "rendered" = some r → isNone r = false →
       resolveBody (PyVal.dict fields) = Except.ok r) ∧
    (lookupField fields "content" = some (PyVal.dict cf) →
       lookupField cf "rendered" = Option.none →
       resolveBody (PyVal.dict fields) = Except.ok (PyVal.dict cf) ∧
       soupGetText (PyVal.dict cf) = Except.error PyErr.typeError) ∧
    (lookupField fields "content" = some (PyVal.dict cf) →
       lookupField cf "rendered" = some PyVal.none →
       resolveBody (PyVal.dict fields) = Except.ok (PyVal.dict cf)) ∧
    (lookupField fields "content" = some (PyVal.str s) →
       resolveBody (PyVal.dict fields) = Except.error PyErr.attributeError) := by
  refine ⟨?_, ?_, ?_, ?_⟩
  · intro hc hr hn
    simp [resolveBody, pyGet, hc, hr, hn]
  · intro hc hr
    refine ⟨?_, rfl⟩
    simp [resolveBody, pyGet, hc, hr, isNone]
  · intro hc hr
    simp [resolveBody, pyGet, hc, hr, isNone]
  · intro hc
    simp [resolveBody, pyGet, hc]

theorem body_resolution_witness :
    resolveBody (PyVal.dict [("content", PyVal.dict [("rendered", PyVal.str "x")])]) =
      Except.ok (PyVal.str "x") ∧
    resolveBody (PyVal.dict [("content", PyVal.str "x")]) =
      Except.error PyErr.attributeError :=
  ⟨(body_resolution [("content", PyVal.dict [("rendered", PyVal.str "x")])]
      [("rendered", PyVal.str "x")] (PyVal.str "x") "x").1 rfl rfl rfl,
   (body_resolution [("content", PyVal.str "x")] [] (PyVal.str "x") "x").2.2.2 rfl⟩

/-- C7: on a successful fetch whose headers parse to total page count `t`,
`next_page = p + 1` when `t > p` and `next_page = None` when `t ≤ p`. -/
theorem next_page_computation (headers : List (String × String))
    (articles : List PyVal) (p t : Int)
    (h : parseTotalPages headers = Except.ok t) :
    (t > p → get_posts_page headers articles p =
       Except.ok { articles := articles, next_page := some (p + 1) }) ∧
    (t ≤ p → get_posts_page headers articles p =
       Except.ok { articles := articles, next_page := Option.none }) := by
  constructor
  · intro hc
    simp [get_posts_page, h, hc]
  · intro hc
    simp [get_posts_page, h, not_lt.mpr hc]

theorem next_page_computation_witness :
    get_posts_page [("X-WP-TotalPages", "3")] [] 2 =
      Except.ok { articles := [], next_page := some 3 } ∧
    get_posts_page [("X-WP-TotalPages", "3")] [] 5 =
      Except.ok { articles := [], next_page := Option.none } :=
  ⟨(next_page_computation [("X-WP-TotalPages", "3")] [] 2 3 rfl).1 (by norm_num),
   (next_page_computation [("X-WP-TotalPages", "3")] [] 5 3 rfl).2 (by norm_num)⟩

/-- C9 (counterexample): when `title.rendered` is the empty string —
present and non-null — the resolved title is *not* the rendered value:
Python `or` sees the falsy `""` and falls back to the whole `title`
object. -/
theorem title_empty_rendered_counterexample :
    resolveTitle (PyVal.dict [("title", PyVal.dict [("rendered", PyVal.str "")])]) =
      Except.ok (PyVal.dict [("rendered", PyVal.str "")]) ∧
    resolveTitle (PyVal.dict [("title", PyVal.dict [("rendered", PyVal.str "")])]) ≠
      Except.ok (PyVal.str "") := by
  refine ⟨rfl, ?_⟩
  intro h
  simp [resolveTitle, pyGet, lookupField, truthy] at h

/-- C9 (amended): the resolved title is `title.rendered` when that entry is
present and truthy (in particular a nonempty string); when `rendered` is
absent, null, or falsy (such as the empty string), resolution falls back
to the whole `title` value. -/
theorem title_resolution (fields tf : List (String × PyVal)) (r : PyVal)
    (ht : lookupField fields "title" = some (PyVal.dict tf)) :
    (lookupField tf "rendered" = some r → truthy r = true →
       resolveTitle (PyVal.dict fields) = Except.ok r) ∧
    (lookupField tf "rendered" = some r → truthy r = false →
       resolveTitle (PyVal.dict fields) = Except.ok (PyVal.dict tf)) ∧
    (lookupField tf "rendered" = Option.none →
       resolveTitle (PyVal.dict fields) = Except.ok (PyVal.dict tf)) := by
  refine ⟨?_, ?_, ?_⟩
  · intro hr htr
    simp [resolveTitle, pyGet, ht, hr, htr]
  · intro hr htr
    simp [resolveTitle, pyGet, ht, hr, htr]
  · intro hr
    simp [resolveTitle, pyGet, ht, hr, truthy]

theorem title_resolution_witness :
    resolveTitle (PyVal.dict [("title", PyVal.dict [("rendered", PyVal.str "T")])]) =
      Except.ok (PyVal.str "T") ∧
    resolveTitle (PyVal.dict [("title", PyVal.dict [("rendered", PyVal.str "")])]) =
      Except.ok (PyVal.dict [("rendered", PyVal.str "")]) :=
  ⟨(title_resolution [("title", PyVal.dict [("rendered", PyVal.str "T")])]
      [("rendered", PyVal.str "T")] (PyVal.str "T") rfl).1 rfl rfl,
   (title_resolution [("title", PyVal.dict [("rendered", PyVal.str "")])]
      [("rendered", PyVal.str "")] (PyVal.str "") rfl).2.1 rfl rfl⟩

/-- C10: a trailing comma in `additional_post_types` puts the empty string
into the configured post-type set, and the fetch URL built for the empty
content type has its path end in `/wp-json/wp/v2/` with no type segment. -/
theorem blank_post_type_from_trailing_comma :
    "" ∈ initPostTypes true true (some "webinars,") ∧
    buildUrl "https://example.com" "" 1 =
      "https://example.com/wp-json/wp/v2/?per_page=100&page=1" := by
  constructor
  · decide
  · rfl

/-- C5: with `get_pages = False`, `get_posts = False` and no additional
post types, the configured post-type list is empty, so `load_data` makes
zero fetch calls and returns the empty document list without error. -/
theorem no_types_no_requests :
    initPostTypes false false Option.none = [] ∧
    ∀ (fetch : String → Nat → PageResult) (page_limit : Option Nat) (fuel : Nat),
      load_data (initPostTypes false false Option.none) fetch page_limit fuel =
        Except.ok [] ∧
      totalFetches (initPostTypes false false Option.none) fetch page_limit fuel = 0 := by
  refine ⟨rfl, ?_⟩
  intro fetch page_limit fuel
  exact ⟨rfl, rfl⟩

/-- C4: against a server with `t ≥ 1` actual pages, the pagination loop
with page limit `N ≥ 1` makes exactly `min t N` fetch calls (so exactly
`N` when `t > N`), makes exactly `t` fetch calls when no limit is set,
and always fetches at least one page. -/
theorem page_limit_fetch_count (t N fuel : Nat) (items : Nat → List PyVal)
    (ht : 1 ≤ t) (hN : 1 ≤ N) (hf : t ≤ fuel) :
    (get_all_posts (serverFetch t items) (some N) fuel).2 = min t N ∧
    (get_all_posts (serverFetch t items) Option.none fuel).2 = t ∧
    1 ≤ (get_all_posts (serverFetch t items) (some N) fuel).2 := by
  have h1 := get_all_posts_aux_count_limit t N items fuel 1 [] 0
    (by omega) (by omega) (by omega)
  have h2 := get_all_posts_aux_count_nolimit t items fuel 1 [] 0
    (by omega) (by omega)
  unfold get_all_posts
  refine ⟨?_, ?_, ?_⟩
  · rw [h1]; omega
  · rw [h2]; omega
  · rw [h1]; omega

theorem page_limit_fetch_count_witness :
    (get_all_posts (serverFetch 3 (fun _ => [])) (some 2) 3).2 = min 3 2 ∧
    (get_all_posts (serverFetch 3 (fun _ => [])) Option.none 3).2 = 3 ∧
    1 ≤ (get_all_posts (serverFetch 3 (fun _ => [])) (some 2) 3).2 :=
  page_limit_fetch_count 3 2 3 (fun _ => []) (by omega) (by omega) (by omega)

/-- C6 (counterexample): a run whose only fetched raw item is missing
`id` (and `link`, `modified`) but has a flat scalar `content` is inside
the claim's scope, yet the call fails with `AttributeError` — raised by
`.get("rendered", …)` on the string content, before `article["id"]` is
ever reached — not with the malformed-item error. -/
theorem missing_key_attribute_error_counterexample :
    missingKeyField (PyVal.dict [("content", PyVal.str "Hello")]) = true ∧
    load_data ["posts"]
        (singlePageFetch [PyVal.dict [("content", PyVal.str "Hello")]])
        Option.none 1 =
      Except.error PyErr.attributeError :=
  ⟨rfl, rfl⟩

/-- C6 (amended): when some gathered raw item is missing `id`, `link` or
`modified`, the whole `load_data` call fails with an exception and no
document list is returned at all (all-or-nothing, no per-item skip); the
exception is specifically the malformed-item error (the spec's
`MalformedItemError`) when every gathered item's `content`/`title` shapes
resolve — an ill-shaped item can make the call fail earlier with a
different exception. -/
theorem missing_key_fails_whole_call (post_types : List String)
    (fetch : String → Nat → PageResult) (page_limit : Option Nat) (fuel : Nat)
    (hmiss : ∃ a ∈ gatherArticles post_types fetch page_limit fuel,
       missingKeyField a = true) :
    (∃ e, load_data post_types fetch page_limit fuel = Except.error e) ∧
    ((∀ a ∈ gatherArticles post_types fetch page_limit fuel, shapeOk a = true) →
       ∃ k, load_data post_types fetch page_limit fuel =
         Except.error (PyErr.malformedItem k)) := by
  constructor
  · obtain ⟨a, ha, hm⟩ := hmiss
    exact mapExcept_error_of_mem normalizeArticle _ a ha
      (normalize_missing_key_errors a hm)
  · intro hshape
    exact mapExcept_error_of_missing _ hshape hmiss

theorem missing_key_fails_whole_call_witness :
    (∃ e, load_data ["posts"] (singlePageFetch [sampleMissingId]) Option.none 1 =
       Except.error e) ∧
    (∃ k, load_data ["posts"] (singlePageFetch [sampleMissingId]) Option.none 1 =
       Except.error (PyErr.malformedItem k)) :=
  ⟨(missing_key_fails_whole_call ["posts"] (singlePageFetch [sampleMissingId])
      Option.none 1
      ⟨sampleMissingId,
       by simp [gatherArticles, get_all_posts, get_all_posts_aux, singlePageFetch],
       rfl⟩).1,
   (missing_key_fails_whole_call ["posts"] (singlePageFetch [sampleMissingId])
      Option.none 1
      ⟨sampleMissingId,
       by simp [gatherArticles, get_all_posts, get_all_posts_aux, singlePageFetch],
       rfl⟩).2
     (by intro a ha
         simp [gatherArticles, get_all_posts, get_all_posts_aux,
           singlePageFetch] at ha
         subst ha; rfl)⟩

/-- C8: documents come out one per raw item, in the raw-item order —
within a content type the items accumulate page by page in page order
(pages `1, …, t`), content types contribute their blocks in processing
order (`gatherArticles` concatenates per-type results over the list of
types), and when every gathered item normalizes, `load_data` returns
exactly the in-order map over that concatenation. -/
theorem document_order (t fuel : Nat) (items : Nat → List PyVal)
    (post_types : List String) (fetch : String → Nat → PageResult)
    (page_limit : Option Nat) (fuel2 : Nat) (g : PyVal → Document)
    (ht : 1 ≤ t) (hf : t ≤ fuel)
    (hall : ∀ a ∈ gatherArticles post_types fetch page_limit fuel2,
      normalizeArticle a = Except.ok (g a)) :
    (get_all_posts (serverFetch t items) Option.none fuel).1 =
      (List.range' 1 t).flatMap items ∧
    load_data post_types fetch page_limit fuel2 =
      Except.ok ((gatherArticles post_types fetch page_limit fuel2).map g) := by
  constructor
  · have h := get_all_posts_aux_posts_nolimit t items fuel 1 [] 0
      (by omega) (by omega)
    unfold get_all_posts
    rw [h]
    have : t + 1 - 1 = t := by omega
    rw [this, List.nil_append]
  · exact mapExcept_ok_of_all_ok normalizeArticle g _ hall

theorem document_order_witness :
    (get_all_posts (serverFetch 2 (fun p => [PyVal.int (Int.ofNat p)]))
        Option.none 2).1 =
      (List.range' 1 2).flatMap (fun p => [PyVal.int (Int.ofNat p)]) ∧
    load_data ["posts"] (singlePageFetch [sampleGood]) Option.none 1 =
      Except.ok ((gatherArticles ["posts"] (singlePageFetch [sampleGood])
        Option.none 1).map (fun _ => sampleGoodDoc)) :=
  document_order 2 2 (fun p => [PyVal.int (Int.ofNat p)]) ["posts"]
    (singlePageFetch [sampleGood]) Option.none 1 (fun _ => sampleGoodDoc)
    (by omega) (by omega)
    (by intro a ha
        simp [gatherArticles, get_all_posts, get_all_posts_aux,
          singlePageFetch] at ha
        subst ha; rfl)

end Wordpress
